import Mathlib

/-!
Verification of the PaintCanvas repository.

The repository contains two variants of a freehand drawing widget:

* PaintCanvas.tsx - a class component with render layers
  intermediatePaths and finalPaths, whose coordinate converter class is
  named with a leading underscore and emits an SVG smooth-curve command
  after the initial move command;
* the second source file (the export variant) - a class component with a
  single in-progress currentPath node, a completedPaths layer, an image
  export button, and a converter that emits an SVG line command.

Numbers are modelled as rationals (JavaScript numbers carry exact values
on all inputs used here; no rounding is performed by the code).  Strings
produced by template interpolation are modelled with toString.  Arrays
mutated in place by the gesture handlers are modelled by explicit state
passing: each handler takes the component state and returns the updated
state.
-/

set_option autoImplicit false

/-- A point in screen coordinates, as pushed by the gesture handlers from
the pageX and pageY fields of a native event. -/
structure Point where
  x : ℚ
  y : ℚ
  deriving DecidableEq, Repr

instance : Inhabited Point := ⟨⟨0, 0⟩⟩

/-- The layout rectangle delivered by an onLayout notification; setOffsets
reads the x and y fields, width and height are unused by the converters. -/
structure LayoutRectangle where
  x : ℚ
  y : ℚ
  width : ℚ
  height : ℚ
  deriving DecidableEq, Repr

/-- The mutable fields of either converter class.  Both classes declare
exactly the fields an offset in x and an offset in y, both initialized
to zero. -/
structure ConverterState where
  offsetX : ℚ
  offsetY : ℚ
  deriving DecidableEq, Repr

/-- Return type of pointToSvgCircle in both variants: a record with the
two coordinate strings. -/
structure SvgCirclePoint where
  x : String
  y : String
  deriving DecidableEq, Repr

namespace _PointsToSvgConverter

/-- Field initializers of the converter class in PaintCanvas.tsx: both
offsets start at zero. -/
def init : ConverterState := { offsetX := 0, offsetY := 0 }

/-- setOffsets of PaintCanvas.tsx: overwrite both offsets with the x and
y of the given layout rectangle; the previous state is discarded. -/
def setOffsets (_s : ConverterState) (layout : LayoutRectangle) : ConverterState :=
  { offsetX := layout.x, offsetY := layout.y }

/-- pointsToSvgPath of PaintCanvas.tsx.  The source guards on a positive
length and indexes the first element, rendered here as a match; it then
folds over the whole array appending one segment per point.  The initial
command string ends in the smooth-curve letter S. -/
def pointsToSvgPath (s : ConverterState) (points : List Point) : String :=
  match points with
  | [] => ""
  | p0 :: rest =>
    let path := "M " ++ toString (p0.x - s.offsetX) ++ ", " ++ toString (p0.y - s.offsetY) ++ " S"
    (p0 :: rest).foldl
      (fun path point =>
        path ++ " " ++ toString (point.x - s.offsetX) ++ ", " ++ toString (point.y - s.offsetY) ++ " ")
      path

/-- pointToSvgCircle of PaintCanvas.tsx: the offset-adjusted coordinates,
each interpolated into a string. -/
def pointToSvgCircle (s : ConverterState) (point : Point) : SvgCirclePoint :=
  { x := toString (point.x - s.offsetX), y := toString (point.y - s.offsetY) }

end _PointsToSvgConverter

namespace PointsToSvgConverter

/-- Field initializers of the converter class in the export variant: both
offsets start at zero. -/
def init : ConverterState := { offsetX := 0, offsetY := 0 }

/-- setOffsets of the export variant: overwrite both offsets with the x
and y of the given layout rectangle; the previous state is discarded. -/
def setOffsets (_s : ConverterState) (layout : LayoutRectangle) : ConverterState :=
  { offsetX := layout.x, offsetY := layout.y }

/-- pointsToSvgPath of the export variant.  Identical to the variant in
PaintCanvas.tsx except that the initial command string ends in the line
letter L. -/
def pointsToSvgPath (s : ConverterState) (points : List Point) : String :=
  match points with
  | [] => ""
  | p0 :: rest =>
    let path := "M " ++ toString (p0.x - s.offsetX) ++ ", " ++ toString (p0.y - s.offsetY) ++ " L"
    (p0 :: rest).foldl
      (fun path point =>
        path ++ " " ++ toString (point.x - s.offsetX) ++ ", " ++ toString (point.y - s.offsetY) ++ " ")
      path

/-- pointToSvgCircle of the export variant: the offset-adjusted
coordinates, each interpolated into a string. -/
def pointToSvgCircle (s : ConverterState) (point : Point) : SvgCirclePoint :=
  { x := toString (point.x - s.offsetX), y := toString (point.y - s.offsetY) }

end PointsToSvgConverter

/-- The canvas-local coordinate pair of a point, formatted as in the path
descriptors: x minus offset, comma, space, y minus offset. -/
def coordStr (s : ConverterState) (p : Point) : String :=
  toString (p.x - s.offsetX) ++ ", " ++ toString (p.y - s.offsetY)

/-- The concatenation of the per-point segment texts appended by the
forEach loop of either pointsToSvgPath, one segment per point in input
order. -/
def pathSegs (s : ConverterState) : List Point → String
  | [] => ""
  | p :: ps => " " ++ coordStr s p ++ " " ++ pathSegs s ps

/-- The forEach loop of either pointsToSvgPath appends the segment texts
of all points, in order, to whatever string it starts from. -/
lemma foldl_seg_eq (s : ConverterState) (l : List Point) (init : String) :
    l.foldl
      (fun path point =>
        path ++ " " ++ toString (point.x - s.offsetX) ++ ", " ++ toString (point.y - s.offsetY) ++ " ")
      init = init ++ pathSegs s l := by
  induction l generalizing init with
  | nil => simp [pathSegs]
  | cons p ps ih =>
    simp only [List.foldl_cons]
    rw [ih]
    simp [pathSegs, coordStr, String.append_assoc]

/-- Closed form of the PaintCanvas.tsx path conversion on a nonempty
point list. -/
lemma pointsToSvgPath_S_cons (s : ConverterState) (p : Point) (rest : List Point) :
    _PointsToSvgConverter.pointsToSvgPath s (p :: rest) =
      "M " ++ coordStr s p ++ " S" ++ pathSegs s (p :: rest) := by
  simp only [_PointsToSvgConverter.pointsToSvgPath]
  rw [foldl_seg_eq]
  simp [coordStr, String.append_assoc]

/-- Closed form of the export-variant path conversion on a nonempty point
list. -/
lemma pointsToSvgPath_L_cons (s : ConverterState) (p : Point) (rest : List Point) :
    PointsToSvgConverter.pointsToSvgPath s (p :: rest) =
      "M " ++ coordStr s p ++ " L" ++ pathSegs s (p :: rest) := by
  simp only [PointsToSvgConverter.pointsToSvgPath]
  rw [foldl_seg_eq]
  simp [coordStr, String.append_assoc]

/-- Claim C1: for every sequence of points, the path conversion returns
the empty descriptor on zero points; on one or more points it returns a
descriptor that starts a path at the offset-adjusted first point and then
lists every point of the sequence, including the first, in input order,
each offset-adjusted; in particular the first coordinate pair of the
output is the offset-adjusted first point.  Proved for both variants of
pointsToSvgPath. -/
theorem pointsToSvgPath_spec (s : ConverterState) (pts : List Point) :
    (_PointsToSvgConverter.pointsToSvgPath s pts =
      match pts with
      | [] => ""
      | p :: _ => "M " ++ coordStr s p ++ " S" ++ pathSegs s pts) ∧
    (PointsToSvgConverter.pointsToSvgPath s pts =
      match pts with
      | [] => ""
      | p :: _ => "M " ++ coordStr s p ++ " L" ++ pathSegs s pts) := by
  cases pts with
  | nil => exact ⟨rfl, rfl⟩
  | cons p rest => exact ⟨pointsToSvgPath_S_cons s p rest, pointsToSvgPath_L_cons s p rest⟩

/-- Claim C5: for every point and every stored offset, the dot conversion
returns the offset-adjusted coordinate pair; in particular, after setting
the offset to x ten and y five, converting the point with x fifteen and
y five yields the canvas-local coordinate pair five and zero.  Proved for
both variants of pointToSvgCircle. -/
theorem pointToSvgCircle_offset_adjusted :
    (∀ (s : ConverterState) (p : Point),
      _PointsToSvgConverter.pointToSvgCircle s p =
        ⟨toString (p.x - s.offsetX), toString (p.y - s.offsetY)⟩ ∧
      PointsToSvgConverter.pointToSvgCircle s p =
        ⟨toString (p.x - s.offsetX), toString (p.y - s.offsetY)⟩) ∧
    _PointsToSvgConverter.pointToSvgCircle
        (_PointsToSvgConverter.setOffsets _PointsToSvgConverter.init ⟨10, 5, 320, 240⟩)
        ⟨15, 5⟩ = ⟨"5", "0"⟩ ∧
    PointsToSvgConverter.pointToSvgCircle
        (PointsToSvgConverter.setOffsets PointsToSvgConverter.init ⟨10, 5, 320, 240⟩)
        ⟨15, 5⟩ = ⟨"5", "0"⟩ := by
  refine ⟨fun s p => ⟨rfl, rfl⟩, ?_, ?_⟩ <;>
    · simp only [_PointsToSvgConverter.pointToSvgCircle, _PointsToSvgConverter.setOffsets,
        PointsToSvgConverter.pointToSvgCircle, PointsToSvgConverter.setOffsets]
      norm_num
      decide

/-- Claim C7: calling setOffsets twice in a row with the same layout
leaves the converter in the same state as calling it once, so every
descriptor produced afterwards by either conversion is identical in the
two cases.  Proved for both variants. -/
theorem setOffsets_idempotent (s : ConverterState) (layout : LayoutRectangle)
    (pts : List Point) (p : Point) :
    _PointsToSvgConverter.setOffsets (_PointsToSvgConverter.setOffsets s layout) layout =
      _PointsToSvgConverter.setOffsets s layout ∧
    PointsToSvgConverter.setOffsets (PointsToSvgConverter.setOffsets s layout) layout =
      PointsToSvgConverter.setOffsets s layout ∧
    _PointsToSvgConverter.pointsToSvgPath
        (_PointsToSvgConverter.setOffsets (_PointsToSvgConverter.setOffsets s layout) layout) pts =
      _PointsToSvgConverter.pointsToSvgPath (_PointsToSvgConverter.setOffsets s layout) pts ∧
    PointsToSvgConverter.pointsToSvgPath
        (PointsToSvgConverter.setOffsets (PointsToSvgConverter.setOffsets s layout) layout) pts =
      PointsToSvgConverter.pointsToSvgPath (PointsToSvgConverter.setOffsets s layout) pts ∧
    _PointsToSvgConverter.pointToSvgCircle
        (_PointsToSvgConverter.setOffsets (_PointsToSvgConverter.setOffsets s layout) layout) p =
      _PointsToSvgConverter.pointToSvgCircle (_PointsToSvgConverter.setOffsets s layout) p ∧
    PointsToSvgConverter.pointToSvgCircle
        (PointsToSvgConverter.setOffsets (PointsToSvgConverter.setOffsets s layout) layout) p =
      PointsToSvgConverter.pointToSvgCircle (PointsToSvgConverter.setOffsets s layout) p :=
  ⟨rfl, rfl, rfl, rfl, rfl, rfl⟩

/-- The per-point segment texts of a path descriptor built with the
offsets still at their initial value of zero: raw screen coordinates. -/
def rawSegs : List Point → String
  | [] => ""
  | p :: ps => " " ++ toString p.x ++ ", " ++ toString p.y ++ " " ++ rawSegs ps

/-- With both offsets zero the segment texts show the raw screen
coordinates. -/
lemma pathSegs_init (pts : List Point) :
    pathSegs ⟨0, 0⟩ pts = rawSegs pts := by
  induction pts with
  | nil => rfl
  | cons p ps ih => simp [pathSegs, rawSegs, coordStr, ih, String.append_assoc]

/-- Claim C9: before any layout notification has arrived the stored
offset of either converter is zero in both components, so every
coordinate conversion returns the raw screen coordinates, offset by zero
rather than by the true canvas position. -/
theorem initial_offset_is_zero :
    _PointsToSvgConverter.init = ⟨0, 0⟩ ∧ PointsToSvgConverter.init = ⟨0, 0⟩ ∧
    (∀ p : Point,
      _PointsToSvgConverter.pointToSvgCircle _PointsToSvgConverter.init p =
        ⟨toString p.x, toString p.y⟩ ∧
      PointsToSvgConverter.pointToSvgCircle PointsToSvgConverter.init p =
        ⟨toString p.x, toString p.y⟩) ∧
    (∀ pts : List Point,
      _PointsToSvgConverter.pointsToSvgPath _PointsToSvgConverter.init pts =
        (match pts with
         | [] => ""
         | p :: _ => "M " ++ toString p.x ++ ", " ++ toString p.y ++ " S" ++ rawSegs pts) ∧
      PointsToSvgConverter.pointsToSvgPath PointsToSvgConverter.init pts =
        (match pts with
         | [] => ""
         | p :: _ => "M " ++ toString p.x ++ ", " ++ toString p.y ++ " L" ++ rawSegs pts)) := by
  refine ⟨rfl, rfl, fun p => ⟨?_, ?_⟩, fun pts => ⟨?_, ?_⟩⟩
  · simp [_PointsToSvgConverter.pointToSvgCircle, _PointsToSvgConverter.init]
  · simp [PointsToSvgConverter.pointToSvgCircle, PointsToSvgConverter.init]
  · cases pts with
    | nil => rfl
    | cons p rest =>
      have h : _PointsToSvgConverter.init = (⟨0, 0⟩ : ConverterState) := rfl
      rw [h, pointsToSvgPath_S_cons, pathSegs_init]
      simp [coordStr, String.append_assoc]
  · cases pts with
    | nil => rfl
    | cons p rest =>
      have h : PointsToSvgConverter.init = (⟨0, 0⟩ : ConverterState) := rfl
      rw [h, pointsToSvgPath_L_cons, pathSegs_init]
      simp [coordStr, String.append_assoc]

/-- Claim C10: for every stored offset and every point sequence the two
variants of pointsToSvgPath produce the same descriptor up to the single
path command letter: on a nonempty sequence the PaintCanvas.tsx variant
emits the smooth-curve letter S after the initial move command where the
export variant emits the line letter L, and the surrounding text,
including every emitted coordinate, is identical; on an empty sequence
both produce the empty descriptor. -/
theorem path_converters_agree_up_to_command (s : ConverterState) (pts : List Point) :
    match pts with
    | [] =>
        _PointsToSvgConverter.pointsToSvgPath s pts = "" ∧
        PointsToSvgConverter.pointsToSvgPath s pts = ""
    | p :: _ =>
        ∃ tail,
          _PointsToSvgConverter.pointsToSvgPath s pts =
            "M " ++ coordStr s p ++ " " ++ "S" ++ tail ∧
          PointsToSvgConverter.pointsToSvgPath s pts =
            "M " ++ coordStr s p ++ " " ++ "L" ++ tail := by
  cases pts with
  | nil => exact ⟨rfl, rfl⟩
  | cons p rest =>
    have hS : (" S" : String) = " " ++ "S" := rfl
    have hL : (" L" : String) = " " ++ "L" := rfl
    refine ⟨pathSegs s (p :: rest), ?_, ?_⟩
    · rw [pointsToSvgPath_S_cons, hS]
      simp [String.append_assoc]
    · rw [pointsToSvgPath_L_cons, hL]
      simp [String.append_assoc]

namespace PaintCanvasTsx

/-- Props of the PaintCanvas component in PaintCanvas.tsx. -/
structure Props where
  width : ℚ
  height : ℚ
  color : String
  strokeSize : ℚ
  deriving DecidableEq, Repr

/-- The renderable elements pushed into the two layers of
PaintCanvas.tsx: a Path with descriptor, stroke color, stroke width and
fill, or a Circle with center coordinate strings and radius string. -/
inductive Element where
  | path (d : String) (stroke : String) (strokeWidth : ℚ) (fill : String)
  | circle (cx : String) (cy : String) (r : String)
  deriving DecidableEq, Repr

/-- The component state of PaintCanvas.tsx: the points of the stroke in
progress and the two render layers. -/
structure PaintCanvasState where
  points : List Point
  intermediatePaths : List Element
  finalPaths : List Element
  deriving DecidableEq, Repr

/-- The state initializer of PaintCanvas.tsx: all three lists empty. -/
def initialState : PaintCanvasState :=
  { points := [], intermediatePaths := [], finalPaths := [] }

/-- onPanResponderGrant of PaintCanvas.tsx: push the event point, then
push a circle for the first recorded point onto the intermediate layer.
The source mutates the intermediate array in place; its setState call
names only the points field, but the mutated array is the same object
held by the state, so the circle is part of the resulting state. -/
def onPanResponderGrant (props : Props) (conv : ConverterState)
    (st : PaintCanvasState) (e : Point) : PaintCanvasState :=
  let newPoints := st.points ++ [e]
  let c := _PointsToSvgConverter.pointToSvgCircle conv newPoints.headI
  { st with
    points := newPoints,
    intermediatePaths :=
      st.intermediatePaths ++ [Element.circle c.x c.y (toString (props.strokeSize / 2))] }

/-- onPanResponderMove of PaintCanvas.tsx: push the event point; when
more than one point is recorded, push a further path through all points
so far onto the intermediate layer.  The length test and the descriptor
read the array after the push. -/
def onPanResponderMove (props : Props) (conv : ConverterState)
    (st : PaintCanvasState) (e : Point) : PaintCanvasState :=
  let newPoints := st.points ++ [e]
  let newIntermediatePaths :=
    if newPoints.length > 1 then
      st.intermediatePaths ++
        [Element.path (_PointsToSvgConverter.pointsToSvgPath conv newPoints)
          props.color props.strokeSize "none"]
    else st.intermediatePaths
  { st with points := newPoints, intermediatePaths := newIntermediatePaths }

/-- onPanResponderRelease of PaintCanvas.tsx: when more than one point is
recorded push the full path onto the final layer; when at least one point
is recorded push a circle for the first point and a circle for the last
point; then clear the points and the intermediate layer. -/
def onPanResponderRelease (props : Props) (conv : ConverterState)
    (st : PaintCanvasState) : PaintCanvasState :=
  let paths1 :=
    if st.points.length > 1 then
      st.finalPaths ++
        [Element.path (_PointsToSvgConverter.pointsToSvgPath conv st.points)
          props.color props.strokeSize "none"]
    else st.finalPaths
  let cFirst := _PointsToSvgConverter.pointToSvgCircle conv st.points.headI
  let cLast := _PointsToSvgConverter.pointToSvgCircle conv (st.points.getLastD default)
  let paths2 :=
    if st.points.length > 0 then
      paths1 ++ [Element.circle cFirst.x cFirst.y (toString (props.strokeSize / 2))]
             ++ [Element.circle cLast.x cLast.y (toString (props.strokeSize / 2))]
    else paths1
  { points := [], intermediatePaths := [], finalPaths := paths2 }

/-- A complete gesture against PaintCanvas.tsx: one grant, a list of
moves, one release. -/
def runGesture (props : Props) (conv : ConverterState) (st : PaintCanvasState)
    (start : Point) (moves : List Point) : PaintCanvasState :=
  onPanResponderRelease props conv
    (moves.foldl (onPanResponderMove props conv) (onPanResponderGrant props conv st start))

end PaintCanvasTsx

namespace PaintCanvasExport

/-- Props of the PaintCanvas component in the export variant; the image
callback is irrelevant to the state transitions and omitted. -/
structure Props where
  width : ℚ
  height : ℚ
  deriving DecidableEq, Repr

/-- The renderable nodes of the export variant: the attribute-free Path
placeholder held while no stroke is in progress, a Path with descriptor,
stroke color, stroke width and fill, or a Circle with center, radius,
stroke and fill. -/
inductive ReactNode where
  | emptyPath
  | path (d : String) (stroke : String) (strokeWidth : ℚ) (fill : String)
  | circle (cx : String) (cy : String) (r : String) (stroke : String) (fill : String)
  deriving DecidableEq, Repr

/-- The component state of the export variant: the points of the stroke
in progress, the single current path node, the completed layer, and the
stroke color and size kept in state. -/
structure PaintCanvasState where
  currentPoints : List Point
  currentPath : ReactNode
  completedPaths : List ReactNode
  strokeColor : String
  strokeSize : ℚ
  deriving DecidableEq, Repr

/-- The state initializer of the export variant: empty point list, the
attribute-free Path placeholder, empty completed layer, empty color
string, stroke size three. -/
def initialState : PaintCanvasState :=
  { currentPoints := [], currentPath := ReactNode.emptyPath, completedPaths := [],
    strokeColor := "", strokeSize := 3 }

/-- onPanResponderGrant of the export variant: push the event point. -/
def onPanResponderGrant (st : PaintCanvasState) (e : Point) : PaintCanvasState :=
  { st with currentPoints := st.currentPoints ++ [e] }

/-- onPanResponderMove of the export variant: push the event point; when
more than one point is recorded, replace the current path with a path
through all points so far.  The length test reads the array after the
push. -/
def onPanResponderMove (conv : ConverterState) (st : PaintCanvasState)
    (e : Point) : PaintCanvasState :=
  let newPoints := st.currentPoints ++ [e]
  let newCurrentPath :=
    if newPoints.length > 1 then
      ReactNode.path (PointsToSvgConverter.pointsToSvgPath conv newPoints)
        st.strokeColor st.strokeSize "none"
    else st.currentPath
  { st with currentPoints := newPoints, currentPath := newCurrentPath }

/-- onPanResponderRelease of the export variant: when more than one point
is recorded push the current path onto the completed layer; when exactly
one point is recorded push a filled circle for that point; then clear the
points and reset the current path to the placeholder. -/
def onPanResponderRelease (conv : ConverterState) (st : PaintCanvasState) :
    PaintCanvasState :=
  let paths1 :=
    if st.currentPoints.length > 1 then st.completedPaths ++ [st.currentPath]
    else st.completedPaths
  let c := PointsToSvgConverter.pointToSvgCircle conv st.currentPoints.headI
  let paths2 :=
    if st.currentPoints.length = 1 then
      paths1 ++
        [ReactNode.circle c.x c.y (toString (st.strokeSize / 2)) st.strokeColor st.strokeColor]
    else paths1
  { st with currentPoints := [], currentPath := ReactNode.emptyPath, completedPaths := paths2 }

/-- A complete gesture against the export variant: one grant, a list of
moves, one release. -/
def runGesture (conv : ConverterState) (st : PaintCanvasState)
    (start : Point) (moves : List Point) : PaintCanvasState :=
  onPanResponderRelease conv
    (moves.foldl (onPanResponderMove conv) (onPanResponderGrant st start))

/-- Rendered surface width of the export variant: the requested width
when it is at least two hundred, two hundred otherwise. -/
def renderWidth (props : Props) : ℚ :=
  if props.width ≥ 200 then props.width else 200

/-- Rendered surface height of the export variant: the requested height
when it is at least two hundred, two hundred otherwise. -/
def renderHeight (props : Props) : ℚ :=
  if props.height ≥ 200 then props.height else 200

end PaintCanvasExport

/-- Folding the move handler of the export variant over a list of move
events appends exactly those points to the stroke and leaves the
completed layer untouched. -/
lemma export_foldl_move_spec (conv : ConverterState) (moves : List Point)
    (st : PaintCanvasExport.PaintCanvasState) :
    (moves.foldl (PaintCanvasExport.onPanResponderMove conv) st).currentPoints =
      st.currentPoints ++ moves ∧
    (moves.foldl (PaintCanvasExport.onPanResponderMove conv) st).completedPaths =
      st.completedPaths := by
  induction moves generalizing st with
  | nil => simp
  | cons m ms ih =>
    obtain ⟨h1, h2⟩ := ih (PaintCanvasExport.onPanResponderMove conv st m)
    refine ⟨?_, ?_⟩
    · rw [List.foldl_cons, h1]
      simp [PaintCanvasExport.onPanResponderMove]
    · rw [List.foldl_cons, h2]
      rfl

/-- The release handler of the export variant, fired while at least one
point is recorded, appends exactly one node to the completed layer. -/
lemma export_release_appends_one (conv : ConverterState)
    (st : PaintCanvasExport.PaintCanvasState) (h : st.currentPoints ≠ []) :
    ∃ e, (PaintCanvasExport.onPanResponderRelease conv st).completedPaths =
      st.completedPaths ++ [e] := by
  rcases Nat.lt_or_ge 1 st.currentPoints.length with hlen | hlen
  · have hne : ¬ st.currentPoints.length = 1 := by omega
    exact ⟨st.currentPath, by simp [PaintCanvasExport.onPanResponderRelease, hlen, hne]⟩
  · have h0 : 0 < st.currentPoints.length := List.length_pos.mpr h
    have h1 : st.currentPoints.length = 1 := by omega
    have hgt : ¬ st.currentPoints.length > 1 := by omega
    refine ⟨PaintCanvasExport.ReactNode.circle
      (PointsToSvgConverter.pointToSvgCircle conv st.currentPoints.headI).x
      (PointsToSvgConverter.pointToSvgCircle conv st.currentPoints.headI).y
      (toString (st.strokeSize / 2)) st.strokeColor st.strokeColor, ?_⟩
    simp [PaintCanvasExport.onPanResponderRelease, h1, hgt]

/-- Folding the move handler of PaintCanvas.tsx over a list of move
events appends exactly those points to the stroke and leaves the final
layer untouched. -/
lemma tsx_foldl_move_spec (props : PaintCanvasTsx.Props) (conv : ConverterState)
    (moves : List Point) (st : PaintCanvasTsx.PaintCanvasState) :
    (moves.foldl (PaintCanvasTsx.onPanResponderMove props conv) st).points =
      st.points ++ moves ∧
    (moves.foldl (PaintCanvasTsx.onPanResponderMove props conv) st).finalPaths =
      st.finalPaths := by
  induction moves generalizing st with
  | nil => simp
  | cons m ms ih =>
    obtain ⟨h1, h2⟩ := ih (PaintCanvasTsx.onPanResponderMove props conv st m)
    refine ⟨?_, ?_⟩
    · rw [List.foldl_cons, h1]
      simp [PaintCanvasTsx.onPanResponderMove]
    · rw [List.foldl_cons, h2]
      rfl

/-- The release handler of PaintCanvas.tsx, fired while at least one
point is recorded, appends two circles to the final layer, preceded by
the full path when more than one point is recorded. -/
lemma tsx_release_spec (props : PaintCanvasTsx.Props) (conv : ConverterState)
    (st : PaintCanvasTsx.PaintCanvasState) (h : st.points ≠ []) :
    ∃ es : List PaintCanvasTsx.Element,
      es.length = (if st.points.length = 1 then 2 else 3) ∧
      (PaintCanvasTsx.onPanResponderRelease props conv st).finalPaths =
        st.finalPaths ++ es := by
  have h0 : 0 < st.points.length := List.length_pos.mpr h
  rcases Nat.lt_or_ge 1 st.points.length with hlen | hlen
  · have hne : ¬ st.points.length = 1 := by omega
    refine ⟨[PaintCanvasTsx.Element.path
        (_PointsToSvgConverter.pointsToSvgPath conv st.points) props.color props.strokeSize "none",
      PaintCanvasTsx.Element.circle
        (_PointsToSvgConverter.pointToSvgCircle conv st.points.headI).x
        (_PointsToSvgConverter.pointToSvgCircle conv st.points.headI).y
        (toString (props.strokeSize / 2)),
      PaintCanvasTsx.Element.circle
        (_PointsToSvgConverter.pointToSvgCircle conv (st.points.getLastD default)).x
        (_PointsToSvgConverter.pointToSvgCircle conv (st.points.getLastD default)).y
        (toString (props.strokeSize / 2))], ?_, ?_⟩
    · simp [hne]
    · simp [PaintCanvasTsx.onPanResponderRelease, hlen, h0, List.append_assoc]
  · have h1 : st.points.length = 1 := by omega
    have hgt : ¬ st.points.length > 1 := by omega
    refine ⟨[PaintCanvasTsx.Element.circle
        (_PointsToSvgConverter.pointToSvgCircle conv st.points.headI).x
        (_PointsToSvgConverter.pointToSvgCircle conv st.points.headI).y
        (toString (props.strokeSize / 2)),
      PaintCanvasTsx.Element.circle
        (_PointsToSvgConverter.pointToSvgCircle conv (st.points.getLastD default)).x
        (_PointsToSvgConverter.pointToSvgCircle conv (st.points.getLastD default)).y
        (toString (props.strokeSize / 2))], ?_, ?_⟩
    · simp [h1]
    · simp [PaintCanvasTsx.onPanResponderRelease, h1, hgt, h0, List.append_assoc]

/-- Claim C2 (amended): for every completed gesture the export variant
appends exactly one new element to the completed layer and no other
entries; PaintCanvas.tsx instead appends two endpoint circles, preceded
by the full path when the gesture recorded more than one point, so its
final layer grows by two elements for a tap and by three for a longer
stroke. -/
theorem gesture_completed_layer_growth
    (conv : ConverterState) (st : PaintCanvasExport.PaintCanvasState)
    (start : Point) (moves : List Point)
    (props : PaintCanvasTsx.Props) (conv2 : ConverterState)
    (st2 : PaintCanvasTsx.PaintCanvasState) (start2 : Point) (moves2 : List Point)
    (h2 : st2.points = []) :
    (∃ e, (PaintCanvasExport.runGesture conv st start moves).completedPaths =
        st.completedPaths ++ [e]) ∧
    (∃ es : List PaintCanvasTsx.Element,
        es.length = (if moves2 = [] then 2 else 3) ∧
        (PaintCanvasTsx.runGesture props conv2 st2 start2 moves2).finalPaths =
          st2.finalPaths ++ es) := by
  constructor
  · obtain ⟨hpts, hcomp⟩ :=
      export_foldl_move_spec conv moves (PaintCanvasExport.onPanResponderGrant st start)
    have hne : (moves.foldl (PaintCanvasExport.onPanResponderMove conv)
        (PaintCanvasExport.onPanResponderGrant st start)).currentPoints ≠ [] := by
      rw [hpts]
      simp [PaintCanvasExport.onPanResponderGrant]
    obtain ⟨e, he⟩ := export_release_appends_one conv _ hne
    refine ⟨e, ?_⟩
    simp only [PaintCanvasExport.runGesture]
    rw [he, hcomp]
    rfl
  · obtain ⟨hpts, hfin⟩ := tsx_foldl_move_spec props conv2 moves2
      (PaintCanvasTsx.onPanResponderGrant props conv2 st2 start2)
    have hppts : (moves2.foldl (PaintCanvasTsx.onPanResponderMove props conv2)
        (PaintCanvasTsx.onPanResponderGrant props conv2 st2 start2)).points =
          start2 :: moves2 := by
      rw [hpts]
      simp [PaintCanvasTsx.onPanResponderGrant, h2]
    have hne : (moves2.foldl (PaintCanvasTsx.onPanResponderMove props conv2)
        (PaintCanvasTsx.onPanResponderGrant props conv2 st2 start2)).points ≠ [] := by
      rw [hppts]
      simp
    obtain ⟨es, hlen, hes⟩ := tsx_release_spec props conv2 _ hne
    rw [hppts] at hlen
    refine ⟨es, ?_, ?_⟩
    · rw [hlen]
      cases moves2 with
      | nil => simp
      | cons m ms => simp
    · simp only [PaintCanvasTsx.runGesture]
      rw [hes, hfin]
      rfl

/-- Concrete instance of the gesture growth theorem: a gesture with one
move against both variants, starting from the initial states. -/
theorem gesture_completed_layer_growth_witness :
    (∃ e, (PaintCanvasExport.runGesture ⟨0, 0⟩ PaintCanvasExport.initialState
        ⟨1, 2⟩ [⟨3, 4⟩]).completedPaths =
      PaintCanvasExport.initialState.completedPaths ++ [e]) ∧
    (∃ es : List PaintCanvasTsx.Element,
        es.length = (if ([⟨3, 4⟩] : List Point) = [] then 2 else 3) ∧
        (PaintCanvasTsx.runGesture ⟨320, 240, "#ff0000", 4⟩ ⟨0, 0⟩
            PaintCanvasTsx.initialState ⟨1, 2⟩ [⟨3, 4⟩]).finalPaths =
          PaintCanvasTsx.initialState.finalPaths ++ es) :=
  gesture_completed_layer_growth ⟨0, 0⟩ PaintCanvasExport.initialState ⟨1, 2⟩ [⟨3, 4⟩]
    ⟨320, 240, "#ff0000", 4⟩ ⟨0, 0⟩ PaintCanvasTsx.initialState ⟨1, 2⟩ [⟨3, 4⟩] rfl

/-- Claim C2 counterexample: in PaintCanvas.tsx a completed tap gesture
(one start event, no moves, one end event) appends two elements to the
final layer, not exactly one. -/
theorem tsx_tap_release_appends_two_elements :
    (PaintCanvasTsx.runGesture ⟨320, 240, "#ff0000", 4⟩ ⟨0, 0⟩
        PaintCanvasTsx.initialState ⟨7, 9⟩ []).finalPaths.length = 2 ∧
    (2 : Nat) ≠ 1 :=
  ⟨rfl, by decide⟩

/-- Claim C3 (amended): for a gesture whose recorded stroke is exactly
one point, the release handler of the export variant appends exactly one
filled circle whose center is the offset-adjusted start point and whose
radius is half the stroke size; the release handler of PaintCanvas.tsx
appends two coincident circles with that center and radius, one for the
first and one for the last recorded point. -/
theorem tap_appends_dot
    (conv : ConverterState) (st : PaintCanvasExport.PaintCanvasState) (start : Point)
    (props : PaintCanvasTsx.Props) (conv2 : ConverterState)
    (st2 : PaintCanvasTsx.PaintCanvasState) (start2 : Point)
    (h : st.currentPoints = []) (h2 : st2.points = []) :
    (PaintCanvasExport.runGesture conv st start []).completedPaths =
      st.completedPaths ++
        [PaintCanvasExport.ReactNode.circle (toString (start.x - conv.offsetX))
          (toString (start.y - conv.offsetY)) (toString (st.strokeSize / 2))
          st.strokeColor st.strokeColor] ∧
    (PaintCanvasTsx.runGesture props conv2 st2 start2 []).finalPaths =
      st2.finalPaths ++
        [PaintCanvasTsx.Element.circle (toString (start2.x - conv2.offsetX))
          (toString (start2.y - conv2.offsetY)) (toString (props.strokeSize / 2)),
         PaintCanvasTsx.Element.circle (toString (start2.x - conv2.offsetX))
          (toString (start2.y - conv2.offsetY)) (toString (props.strokeSize / 2))] := by
  constructor
  · simp [PaintCanvasExport.runGesture, PaintCanvasExport.onPanResponderGrant,
      PaintCanvasExport.onPanResponderRelease, PointsToSvgConverter.pointToSvgCircle, h]
  · simp [PaintCanvasTsx.runGesture, PaintCanvasTsx.onPanResponderGrant,
      PaintCanvasTsx.onPanResponderRelease, _PointsToSvgConverter.pointToSvgCircle, h2]

/-- Concrete instance of the tap theorem at the initial states of both
components, with offsets zero and a tap at x seven, y nine. -/
theorem tap_appends_dot_witness :
    (PaintCanvasExport.runGesture ⟨0, 0⟩ PaintCanvasExport.initialState
        ⟨7, 9⟩ []).completedPaths =
      PaintCanvasExport.initialState.completedPaths ++
        [PaintCanvasExport.ReactNode.circle
          (toString ((⟨7, 9⟩ : Point).x - (⟨0, 0⟩ : ConverterState).offsetX))
          (toString ((⟨7, 9⟩ : Point).y - (⟨0, 0⟩ : ConverterState).offsetY))
          (toString (PaintCanvasExport.initialState.strokeSize / 2))
          PaintCanvasExport.initialState.strokeColor
          PaintCanvasExport.initialState.strokeColor] ∧
    (PaintCanvasTsx.runGesture ⟨320, 240, "#ff0000", 4⟩ ⟨0, 0⟩
        PaintCanvasTsx.initialState ⟨7, 9⟩ []).finalPaths =
      PaintCanvasTsx.initialState.finalPaths ++
        [PaintCanvasTsx.Element.circle
          (toString ((⟨7, 9⟩ : Point).x - (⟨0, 0⟩ : ConverterState).offsetX))
          (toString ((⟨7, 9⟩ : Point).y - (⟨0, 0⟩ : ConverterState).offsetY))
          (toString ((⟨320, 240, "#ff0000", 4⟩ : PaintCanvasTsx.Props).strokeSize / 2)),
         PaintCanvasTsx.Element.circle
          (toString ((⟨7, 9⟩ : Point).x - (⟨0, 0⟩ : ConverterState).offsetX))
          (toString ((⟨7, 9⟩ : Point).y - (⟨0, 0⟩ : ConverterState).offsetY))
          (toString ((⟨320, 240, "#ff0000", 4⟩ : PaintCanvasTsx.Props).strokeSize / 2))] :=
  tap_appends_dot ⟨0, 0⟩ PaintCanvasExport.initialState ⟨7, 9⟩
    ⟨320, 240, "#ff0000", 4⟩ ⟨0, 0⟩ PaintCanvasTsx.initialState ⟨7, 9⟩ rfl rfl

/-- Claim C3 counterexample: in PaintCanvas.tsx a tap gesture appends two
coincident circles to the final layer rather than exactly one dot. -/
theorem tsx_tap_appends_two_circles :
    (PaintCanvasTsx.runGesture ⟨320, 240, "#0000ff", 6⟩ ⟨0, 0⟩
        PaintCanvasTsx.initialState ⟨7, 9⟩ []).finalPaths =
      [PaintCanvasTsx.Element.circle "7" "9" "3",
       PaintCanvasTsx.Element.circle "7" "9" "3"] ∧
    ([PaintCanvasTsx.Element.circle "7" "9" "3",
      PaintCanvasTsx.Element.circle "7" "9" "3"] : List PaintCanvasTsx.Element).length ≠ 1 := by
  constructor
  · norm_num [PaintCanvasTsx.runGesture, PaintCanvasTsx.onPanResponderGrant,
      PaintCanvasTsx.onPanResponderRelease, PaintCanvasTsx.initialState,
      _PointsToSvgConverter.pointToSvgCircle]
    decide
  · decide

/-- Claim C4 (amended): in the export variant every move event, once the
stroke holds at least two points, replaces the single current path with
an updated path through all points recorded so far and leaves the
completed layer untouched; in PaintCanvas.tsx every such move instead
appends one more path through all points so far to the intermediate
layer, which accumulates rather than being replaced. -/
theorem move_updates_current_layer
    (conv : ConverterState) (st : PaintCanvasExport.PaintCanvasState) (e : Point)
    (props : PaintCanvasTsx.Props) (conv2 : ConverterState)
    (st2 : PaintCanvasTsx.PaintCanvasState) (e2 : Point) :
    (PaintCanvasExport.onPanResponderMove conv st e).currentPath =
      (if (st.currentPoints ++ [e]).length > 1 then
        PaintCanvasExport.ReactNode.path
          (PointsToSvgConverter.pointsToSvgPath conv (st.currentPoints ++ [e]))
          st.strokeColor st.strokeSize "none"
      else st.currentPath) ∧
    (PaintCanvasExport.onPanResponderMove conv st e).completedPaths = st.completedPaths ∧
    (PaintCanvasTsx.onPanResponderMove props conv2 st2 e2).intermediatePaths =
      (if (st2.points ++ [e2]).length > 1 then
        st2.intermediatePaths ++
          [PaintCanvasTsx.Element.path
            (_PointsToSvgConverter.pointsToSvgPath conv2 (st2.points ++ [e2]))
            props.color props.strokeSize "none"]
      else st2.intermediatePaths) :=
  ⟨rfl, rfl, rfl⟩

/-- Claim C4 counterexample: in PaintCanvas.tsx the intermediate layer
accumulates entries; after one grant and two moves it holds three
elements, the grant circle and one path per move, not a single replaced
path. -/
theorem tsx_moves_accumulate_paths :
    (PaintCanvasTsx.onPanResponderMove ⟨320, 240, "#ff0000", 4⟩ ⟨0, 0⟩
      (PaintCanvasTsx.onPanResponderMove ⟨320, 240, "#ff0000", 4⟩ ⟨0, 0⟩
        (PaintCanvasTsx.onPanResponderGrant ⟨320, 240, "#ff0000", 4⟩ ⟨0, 0⟩
          PaintCanvasTsx.initialState ⟨0, 0⟩) ⟨1, 1⟩) ⟨2, 2⟩).intermediatePaths.length = 3 ∧
    (3 : Nat) ≠ 1 :=
  ⟨rfl, by decide⟩

/-- Claim C6: for every gesture, regardless of how many points were
recorded, the end event clears the in-progress point list and the
current render layer: PaintCanvas.tsx resets both the point list and the
intermediate layer to empty, the export variant resets the point list to
empty and the current path to the attribute-free placeholder. -/
theorem gestureEnd_clears_current
    (props : PaintCanvasTsx.Props) (conv : ConverterState)
    (st : PaintCanvasTsx.PaintCanvasState)
    (conv2 : ConverterState) (st2 : PaintCanvasExport.PaintCanvasState) :
    (PaintCanvasTsx.onPanResponderRelease props conv st).points = [] ∧
    (PaintCanvasTsx.onPanResponderRelease props conv st).intermediatePaths = [] ∧
    (PaintCanvasExport.onPanResponderRelease conv2 st2).currentPoints = [] ∧
    (PaintCanvasExport.onPanResponderRelease conv2 st2).currentPath =
      PaintCanvasExport.ReactNode.emptyPath :=
  ⟨rfl, rfl, rfl, rfl⟩

/-- Claim C8: in the export variant the rendered surface dimensions equal
the requested width and height clamped up to a minimum render size of
two hundred by two hundred: the requested value when it is at least two
hundred and exactly two hundred otherwise. -/
theorem render_size_clamped (props : PaintCanvasExport.Props) :
    PaintCanvasExport.renderWidth props = max props.width 200 ∧
    PaintCanvasExport.renderHeight props = max props.height 200 := by
  constructor
  · rcases le_or_lt 200 props.width with h | h
    · rw [PaintCanvasExport.renderWidth, if_pos h, max_eq_left h]
    · rw [PaintCanvasExport.renderWidth, if_neg (not_le.mpr h), max_eq_right h.le]
  · rcases le_or_lt 200 props.height with h | h
    · rw [PaintCanvasExport.renderHeight, if_pos h, max_eq_left h]
    · rw [PaintCanvasExport.renderHeight, if_neg (not_le.mpr h), max_eq_right h.le]
